import Mathlib

/-!
Verification of the SpeakMate real-time session protocol core.

This file shallowly embeds the backend websocket core of the repository:

* `backend/app/api/websocket/protocol.py` — message schema, session state
  machine, session context;
* `backend/app/api/websocket/session_manager.py` — the `SessionManager`
  class (live session table, connections, reconnection windows, replay
  buffers);
* `backend/app/api/websocket/handlers.py` — the `MessageHandler` dispatcher.

Modelling conventions:

* Python dicts keyed by session id become association lists
  `List (String × α)` with `alookup` / `aset` / `aerase` mirroring
  `d.get`, `d[k] = v` and `del d[k]` / `d.pop(k, None)`.
* Wall-clock instants (`datetime.utcnow()`) become explicit `now : Nat`
  parameters measured in seconds; `timedelta(seconds = w)` becomes `+ w`.
* Websocket handles become opaque `Nat` identifiers.  A call such as
  `websocket.send_text(...)` is recorded in an output list of
  `(handle, message)` pairs; whether the underlying transport write
  succeeds is an explicit `transport_ok : Bool` parameter.
* External collaborators (database, speech streaming, conversation
  orchestrator, analysis coordinator, quota service) are not part of the
  core; each call site takes the collaborator result as an explicit
  parameter (`Except String α` models a Python call that may raise).
* `asyncio.create_task(...)` fire-and-forget background analysis is not
  modelled (it never feeds back into protocol state); the arguments that
  Python evaluates synchronously before spawning the task (notably
  `await get_audio_features(...)`) are modelled, since an exception there
  propagates in the handler itself.
* Message `timestamp` fields are advisory only (never read by the code)
  and are omitted from the embedded messages.
* A Python method that mutates shared state and may raise is embedded as
  a function returning the mutated state together with an `Outcome`:
  `.raised e` records an exception escaping the method after the
  mutations already performed (Python in-place mutation semantics).
-/

/-- Session lifecycle states (`SessionState` in protocol.py). -/
inductive SessionState where
  | INITIALIZING
  | READY
  | LISTENING
  | PROCESSING
  | AI_SPEAKING
  | PAUSED
  | ANALYZING
  | COMPLETED
  | ERROR
deriving DecidableEq

/-- Practice modes (`SessionMode` in protocol.py). -/
inductive SessionMode where
  | free_speaking
  | ielts_test
  | ielts_part1
  | ielts_part2
  | ielts_part3
  | training
deriving DecidableEq

/-- Client-to-server message types (`ClientMessageType` in protocol.py). -/
inductive ClientMessageType where
  | session_start
  | session_resume
  | session_end
  | audio_config
  | audio_commit
  | text_input
  | ping
  | get_status
deriving DecidableEq

/-- Server-to-client message types (`ServerMessageType` in protocol.py).
Constructors whose Python spelling ends in a reserved suffix carry a
`_msg` / `_frame` suffix here; the wire strings are unchanged. -/
inductive ServerMessageType where
  | session_started
  | session_resumed
  | session_ended
  | session_error
  | stt_partial_msg
  | stt_final_msg
  | ai_reply
  | ai_typing
  | tts_audio_frame
  | tts_url
  | analysis_event
  | summary_ready
  | analysis_ready
  | pong
  | status
  | ielts_timer
  | ielts_cue_card
  | ielts_next_part
deriving DecidableEq

/-- Error codes (`ErrorCode` in protocol.py). -/
inductive ErrorCode where
  | SESSION_NOT_FOUND
  | SESSION_EXPIRED
  | SESSION_ALREADY_ACTIVE
  | AUTH_REQUIRED
  | AUTH_INVALID
  | AUTH_EXPIRED
  | QUOTA_EXCEEDED
  | RATE_LIMITED
  | AUDIO_FORMAT_INVALID
  | AUDIO_TOO_LONG
  | STT_FAILED
  | AI_UNAVAILABLE
  | ANALYSIS_FAILED
  | INTERNAL_ERROR
deriving DecidableEq

/-- Stable wire strings of the error codes (the enum values in protocol.py). -/
def ErrorCode.code : ErrorCode → String
  | .SESSION_NOT_FOUND => "E001"
  | .SESSION_EXPIRED => "E002"
  | .SESSION_ALREADY_ACTIVE => "E003"
  | .AUTH_REQUIRED => "E101"
  | .AUTH_INVALID => "E102"
  | .AUTH_EXPIRED => "E103"
  | .QUOTA_EXCEEDED => "E201"
  | .RATE_LIMITED => "E202"
  | .AUDIO_FORMAT_INVALID => "E301"
  | .AUDIO_TOO_LONG => "E302"
  | .STT_FAILED => "E303"
  | .AI_UNAVAILABLE => "E401"
  | .ANALYSIS_FAILED => "E402"
  | .INTERNAL_ERROR => "E500"

/-- Recovery payload (`SessionContext.to_recovery_payload` in protocol.py). -/
structure RecoveryPayload where
  session_id : String
  state : SessionState
  turn_count : Nat
  client_seq : Nat
  server_seq : Nat
  ielts_part : Option Nat
  ielts_question_index : Nat
deriving DecidableEq

/-- Structured bodies of server messages, restricted to the fields the
embedded code actually writes. -/
inductive ServerPayload where
  | empty
  | errorInfo (code : ErrorCode) (message : String)
  | startedInfo (session_id : String) (mode : SessionMode) (status : String)
  | replyInfo (text : String) (turn_id : String)
  | typingInfo (is_typing : Bool)
  | recoveryInfo (p : RecoveryPayload)
  | summaryInfo (summary_id : String) (error_count : Nat) (duration_seconds : Nat)
  | endedInfo (session_id : String) (status : String) (analysis_status : String)
  | pongInfo
  | statusInfo (session_id : String) (state : SessionState) (turn_count : Nat)
      (duration_ms : Nat) (audio_chunks : Nat)
deriving DecidableEq

/-- Server message envelope (`ServerMessage` in protocol.py); the advisory
timestamp field is omitted. -/
structure ServerMessage where
  mtype : ServerMessageType
  seq : Nat
  payload : ServerPayload
deriving DecidableEq

/-- The `ServerMessage.error` classmethod. -/
def ServerMessage.error (seq : Nat) (code : ErrorCode) (message : String) : ServerMessage :=
  ⟨.session_error, seq, .errorInfo code message⟩

/-- The `ServerMessage.ai_reply` classmethod. -/
def ServerMessage.mk_ai_reply (seq : Nat) (text : String) (turn_id : String) : ServerMessage :=
  ⟨.ai_reply, seq, .replyInfo text turn_id⟩

/-- The `ServerMessage.session_started` classmethod. -/
def ServerMessage.mk_session_started (seq : Nat) (session_id : String) (mode : SessionMode) :
    ServerMessage :=
  ⟨.session_started, seq, .startedInfo session_id mode "active"⟩

/-- Structured bodies of client messages, restricted to what the embedded
handlers read (`message.payload.get("text", "")`). -/
inductive ClientPayload where
  | emptyP
  | textP (text : String)
  | rawP
deriving DecidableEq

/-- The dict lookup `message.payload.get("text", "")`. -/
def ClientPayload.getText : ClientPayload → String
  | .textP t => t
  | _ => ""

/-- Client message envelope (`ClientMessage` in protocol.py); the advisory
timestamp field is omitted. -/
structure ClientMessage where
  mtype : ClientMessageType
  seq : Nat
  payload : ClientPayload
deriving DecidableEq

/-- Full per-session context (`SessionContext` in protocol.py).  Timestamps
are seconds as `Nat`. -/
structure SessionContext where
  session_id : String
  user_id : String
  state : SessionState
  mode : SessionMode
  topic : Option String
  client_seq : Nat := 0
  server_seq : Nat := 0
  turn_count : Nat := 0
  total_duration_ms : Nat := 0
  ielts_part : Option Nat := none
  ielts_question_index : Nat := 0
  started_at : Nat
  last_activity_at : Nat
  audio_chunks_received : Nat := 0
  total_audio_ms : Nat := 0
deriving DecidableEq

/-- The `increment_server_seq` method: bumps the counter and returns the new
value, together with the updated context (Python mutates in place). -/
def SessionContext.increment_server_seq (c : SessionContext) : Nat × SessionContext :=
  (c.server_seq + 1, { c with server_seq := c.server_seq + 1 })

/-- The `to_recovery_payload` method. -/
def SessionContext.to_recovery_payload (c : SessionContext) : RecoveryPayload :=
  ⟨c.session_id, c.state, c.turn_count, c.client_seq, c.server_seq,
    c.ielts_part, c.ielts_question_index⟩

/-! ## Association lists: the embedding of Python dicts keyed by session id -/

/-- Dict lookup `d.get(k)` / `k in d`. -/
def alookup {α : Type} (k : String) : List (String × α) → Option α
  | [] => none
  | (k2, v) :: rest => if k2 = k then some v else alookup k rest

/-- Dict deletion `d.pop(k, None)` / `del d[k]` (total). -/
def aerase {α : Type} (k : String) : List (String × α) → List (String × α)
  | [] => []
  | p :: rest => if p.1 = k then aerase k rest else p :: aerase k rest

/-- Dict assignment `d[k] = v` (insert or overwrite). -/
def aset {α : Type} (k : String) (v : α) (l : List (String × α)) : List (String × α) :=
  (k, v) :: aerase k l

theorem alookup_aerase {α : Type} (k k2 : String) (l : List (String × α)) :
    alookup k (aerase k2 l) = if k2 = k then none else alookup k l := by
  induction l with
  | nil => simp [aerase, alookup]
  | cons p rest ih =>
    by_cases hp : p.1 = k2
    · by_cases hk : k2 = k
      · subst hk
        simp [aerase, alookup, hp, ih]
      · have hpk : ¬ p.1 = k := fun hc => hk (hp.symm.trans hc)
        simp [aerase, alookup, hp, hk, hpk, ih]
    · by_cases hk2 : p.1 = k
      · have hkk : ¬ k2 = k := fun hc => hp (hk2.trans hc.symm)
        have hkk2 : ¬ k = k2 := fun hc => hkk hc.symm
        simp [aerase, alookup, hp, hk2, hkk, hkk2]
      · simp [aerase, alookup, hp, hk2, ih]

theorem alookup_aerase_self {α : Type} (k : String) (l : List (String × α)) :
    alookup k (aerase k l) = none := by
  simp [alookup_aerase]

theorem alookup_aerase_ne {α : Type} {k k2 : String} (l : List (String × α))
    (h : k2 ≠ k) : alookup k (aerase k2 l) = alookup k l := by
  simp [alookup_aerase, h]

theorem alookup_aset_self {α : Type} (k : String) (v : α) (l : List (String × α)) :
    alookup k (aset k v l) = some v := by
  simp [aset, alookup]

theorem alookup_aset_ne {α : Type} {k k2 : String} (v : α) (l : List (String × α))
    (h : k2 ≠ k) : alookup k (aset k2 v l) = alookup k l := by
  simp [aset, alookup, h, alookup_aerase_ne l h]

theorem alookup_mem {α : Type} {k : String} {v : α} {l : List (String × α)}
    (h : alookup k l = some v) : (k, v) ∈ l := by
  induction l with
  | nil => simp [alookup] at h
  | cons p rest ih =>
    rcases p with ⟨k2, v2⟩
    by_cases hp : k2 = k
    · subst hp
      simp [alookup] at h
      subst h
      exact List.mem_cons_self _ _
    · simp only [alookup, if_neg hp] at h
      exact List.mem_cons_of_mem _ (ih h)

/-! ## Session Manager (session_manager.py) -/

/-- The `SessionManager` class state.  `max_buffer_size` and
`reconnect_window` are the instance attributes set in `__init__`
(100 entries, 300 seconds). -/
structure SessionManager where
  sessions : List (String × SessionContext) := []
  connections : List (String × Nat) := []
  pending_reconnect : List (String × Nat) := []
  message_buffers : List (String × List ServerMessage) := []
  max_buffer_size : Nat := 100
  reconnect_window : Nat := 300
deriving DecidableEq

namespace SessionManager

/-- The `create_session` method.  The database collaborator allocates the
session id; `db_session_id` is the id it returned. -/
def create_session (m : SessionManager) (websocket : Nat) (user_id : String)
    (mode : SessionMode) (topic : Option String)
    (ielts_part : Option Nat) (db_session_id : String) (now : Nat) :
    SessionManager × SessionContext :=
  let context : SessionContext :=
    { session_id := db_session_id,
      user_id := user_id,
      state := .READY,
      mode := mode,
      topic := topic,
      ielts_part := ielts_part,
      started_at := now,
      last_activity_at := now }
  ({ m with
      sessions := aset db_session_id context m.sessions,
      connections := aset db_session_id websocket m.connections,
      message_buffers := aset db_session_id [] m.message_buffers },
    context)

/-- The `resume_session` method.  Returns the updated manager, the resumed
context (or `none`), and the list of messages replayed on the new websocket
(`_replay_messages`, inlined at its single call site).  The
`_db_has_session` flag records the result of the database fallback lookup;
either way that branch returns `None` with the manager untouched (limited
recovery). -/
def resume_session (m : SessionManager) (websocket : Nat) (session_id : String)
    (last_seq : Nat) (_db_has_session : Bool) (now : Nat) :
    SessionManager × Option SessionContext × List ServerMessage :=
  match alookup session_id m.sessions with
  | none => (m, none, [])
  | some context =>
    let attach : SessionManager → SessionManager × Option SessionContext × List ServerMessage :=
      fun m =>
        let context := { context with last_activity_at := now }
        let m := { m with
          sessions := aset session_id context m.sessions,
          connections := aset session_id websocket m.connections }
        let replayed :=
          match alookup session_id m.message_buffers with
          | none => []
          | some buffer => buffer.filter (fun msg => msg.seq > last_seq)
        (m, some context, replayed)
    match alookup session_id m.pending_reconnect with
    | some expiry =>
      if now > expiry then (m, none, [])
      else attach { m with pending_reconnect := aerase session_id m.pending_reconnect }
    | none => attach m

/-- The `handle_disconnect` method. -/
def handle_disconnect (m : SessionManager) (session_id : String) (now : Nat) :
    SessionManager :=
  match alookup session_id m.sessions with
  | none => m
  | some context =>
    { m with
      pending_reconnect := aset session_id (now + m.reconnect_window) m.pending_reconnect,
      sessions := aset session_id { context with state := .PAUSED } m.sessions,
      connections := aerase session_id m.connections }

/-- The `end_session` method.  The database `update_session` write is
external and has no effect on manager state. -/
def end_session (m : SessionManager) (session_id : String) (_now : Nat) :
    SessionManager × Option RecoveryPayload :=
  match alookup session_id m.sessions with
  | none => (m, none)
  | some context =>
    let context := { context with state := .ANALYZING }
    let m := { m with sessions := aset session_id context m.sessions }
    let m := { m with
      connections := aerase session_id m.connections,
      pending_reconnect := aerase session_id m.pending_reconnect }
    let context := { context with state := .COMPLETED }
    let m := { m with sessions := aset session_id context m.sessions }
    (m, some context.to_recovery_payload)

/-- The buffering prefix of the `send_message` method: append to the
session's replay buffer, trimming to the last `max_buffer_size` entries
(a session without a buffer entry is left alone). -/
def buffer_append (m : SessionManager) (session_id : String) (message : ServerMessage) :
    SessionManager :=
  match alookup session_id m.message_buffers with
  | some buffer =>
    let buffer := buffer ++ [message]
    let buffer :=
      if buffer.length > m.max_buffer_size then
        buffer.drop (buffer.length - m.max_buffer_size)
      else buffer
    { m with message_buffers := aset session_id buffer m.message_buffers }
  | none => m

/-- The `send_message` method.  Returns the updated manager, the delivered
flag, and the messages actually written to a websocket handle.
`transport_ok` is whether the underlying `send_text` succeeds; on failure
the method treats it as an implicit disconnect. -/
def send_message (m : SessionManager) (session_id : String) (message : ServerMessage)
    (transport_ok : Bool) (now : Nat) :
    SessionManager × Bool × List (Nat × ServerMessage) :=
  let m := m.buffer_append session_id message
  match alookup session_id m.connections with
  | some ws =>
    if transport_ok then (m, true, [(ws, message)])
    else (m.handle_disconnect session_id now, false, [])
  | none => (m, false, [])

/-- The `get_session` method. -/
def get_session (m : SessionManager) (session_id : String) : Option SessionContext :=
  alookup session_id m.sessions

/-- The `update_state` method. -/
def update_state (m : SessionManager) (session_id : String) (state : SessionState)
    (now : Nat) : SessionManager :=
  match alookup session_id m.sessions with
  | none => m
  | some context =>
    let context := { context with state := state, last_activity_at := now }
    { m with sessions := aset session_id context m.sessions }

/-- The `record_audio_chunk` method. -/
def record_audio_chunk (m : SessionManager) (session_id : String) (duration_ms : Nat)
    (now : Nat) : SessionManager :=
  match alookup session_id m.sessions with
  | none => m
  | some context =>
    let context :=
      { context with
        audio_chunks_received := context.audio_chunks_received + 1,
        total_audio_ms := context.total_audio_ms + duration_ms,
        last_activity_at := now }
    { m with sessions := aset session_id context m.sessions }

/-- The `increment_turn` method. -/
def increment_turn (m : SessionManager) (session_id : String) : SessionManager :=
  match alookup session_id m.sessions with
  | none => m
  | some context =>
    let context := { context with turn_count := context.turn_count + 1 }
    { m with sessions := aset session_id context m.sessions }

/-- One iteration of the loop body of `cleanup_expired_sessions`.  The
second component is a ghost log recording, for each force-ended session,
the context object as it stood right before being evicted from the table
(Python discards the `end_session` return value; the log makes the final
state of the evicted record observable to specifications). -/
def cleanup_step (acc : SessionManager × List (String × SessionContext)) (sid : String) :
    SessionManager × List (String × SessionContext) :=
  let (m, log) := acc
  let (m, log) :=
    match alookup sid m.sessions with
    | some _ =>
      let m := (m.end_session sid 0).1
      match alookup sid m.sessions with
      | some c => (m, log ++ [(sid, c)])
      | none => (m, log)
    | none => (m, log)
  ({ m with
      sessions := aerase sid m.sessions,
      message_buffers := aerase sid m.message_buffers,
      pending_reconnect := aerase sid m.pending_reconnect },
    log)

/-- The `cleanup_expired_sessions` method. -/
def cleanup_expired_sessions (m : SessionManager) (now : Nat) :
    SessionManager × List (String × SessionContext) :=
  let expired := (m.pending_reconnect.filter (fun p => now > p.2)).map (fun p => p.1)
  expired.foldl cleanup_step (m, [])

/-- The `get_active_session_count` method. -/
def get_active_session_count (m : SessionManager) : Nat :=
  m.connections.length

end SessionManager

/-! ## Message Dispatcher (handlers.py) -/

/-- Result of one dispatcher invocation.  `.ok resp` is a normal return
(`resp` the optional response message the caller is expected to send);
`.raised e` records a Python exception escaping the handler after the
state mutations already performed. -/
inductive Outcome where
  | ok (resp : Option ServerMessage)
  | raised (err : String)
deriving DecidableEq

/-- Result of `handle_session_start` (returns the created context or
raises). -/
inductive StartOutcome where
  | ok (context : SessionContext)
  | raised (err : String)
deriving DecidableEq

/-- Collaborator results for one dispatcher invocation.  Each field is the
value the corresponding external service call would produce at its single
call site (`Except.error e` models the call raising exception `e`). -/
structure CollabEnv where
  configure_audio_stream : Except String Unit := .ok ()
  finalize_utterance : Except String String := .ok ""
  get_audio_features : Except String Unit := .ok ()
  generate_response : Except String String := .ok ""
  generate_fast_summary : Except String Nat := .ok 0
  queue_deep_analysis : Except String Unit := .ok ()
  quota_allowed : Bool := true
  quota_reason : String := ""
  init_speech : Except String Unit := .ok ()
  init_conversation : Except String Unit := .ok ()
  generate_greeting : Except String String := .ok ""

namespace MessageHandler

/-- The `context.increment_server_seq()` idiom: the handler holds an alias
of the context stored in the manager, so the bump is visible in the
session table.  Returns the manager with the bumped context and the fresh
seq value.  (The `none` branch is unreachable on handler paths, which
start from a successful lookup.) -/
def bump_seq (m : SessionManager) (sid : String) : SessionManager × Nat :=
  match alookup sid m.sessions with
  | none => (m, 0)
  | some c =>
    let r := c.increment_server_seq
    ({ m with sessions := aset sid r.2 m.sessions }, r.1)

/-- The `_handle_audio_config` method: the `AudioConfig(**payload)` parse
and the speech-service `configure_audio` call sit in one `try`, answered
by a typed `E301` error on failure. -/
def handle_audio_config (env : CollabEnv) (m : SessionManager) (sid : String)
    (_message : ClientMessage) : SessionManager × List (Nat × ServerMessage) × Outcome :=
  match env.configure_audio_stream with
  | .ok _ => (m, [], .ok none)
  | .error e =>
    let (m, seq) := bump_seq m sid
    (m, [], .ok (some (ServerMessage.error seq .AUDIO_FORMAT_INVALID e)))

/-- The `_handle_audio_commit` method. -/
def handle_audio_commit (env : CollabEnv) (m : SessionManager) (sid : String)
    (_message : ClientMessage) (transport_ok : Bool) (now : Nat) :
    SessionManager × List (Nat × ServerMessage) × Outcome :=
  let m := m.update_state sid .PROCESSING now
  match env.finalize_utterance with
  | .error e => (m, [], .raised e)
  | .ok final_text =>
    if final_text = "" then (m, [], .ok none)
    else
      match env.get_audio_features with
      | .error e => (m, [], .raised e)
      | .ok _ =>
        let m := m.update_state sid .PROCESSING now
        let b1 := bump_seq m sid
        let typing_msg : ServerMessage := ⟨.ai_typing, b1.2, .typingInfo true⟩
        let r1 := b1.1.send_message sid typing_msg transport_ok now
        let sent1 := r1.2.2
        match env.generate_response with
        | .error e => (r1.1, sent1, .raised e)
        | .ok response =>
          let m := r1.1.increment_turn sid
          let b2 := bump_seq m sid
          let tc := (Option.map (fun c => c.turn_count) (alookup sid b2.1.sessions)).getD 0
          let reply_msg := ServerMessage.mk_ai_reply b2.2 response s!"turn_{tc}_{sid}"
          let r2 := b2.1.send_message sid reply_msg transport_ok now
          let m := r2.1.update_state sid .READY now
          (m, sent1 ++ r2.2.2, .ok none)

/-- The `_handle_text_input` method. -/
def handle_text_input (env : CollabEnv) (m : SessionManager) (sid : String)
    (message : ClientMessage) (now : Nat) :
    SessionManager × List (Nat × ServerMessage) × Outcome :=
  let text := message.payload.getText
  if text = "" then (m, [], .ok none)
  else
    let m := m.update_state sid .PROCESSING now
    match env.generate_response with
    | .error e => (m, [], .raised e)
    | .ok response =>
      let m := m.increment_turn sid
      let b := bump_seq m sid
      let tc := (Option.map (fun c => c.turn_count) (alookup sid b.1.sessions)).getD 0
      (b.1, [], .ok (some (ServerMessage.mk_ai_reply b.2 response s!"turn_{tc}_{sid}")))

/-- The `_handle_session_end` method. -/
def handle_session_end (env : CollabEnv) (m : SessionManager) (sid : String)
    (_message : ClientMessage) (transport_ok : Bool) (now : Nat) :
    SessionManager × List (Nat × ServerMessage) × Outcome :=
  let m := m.update_state sid .ANALYZING now
  let m := (m.end_session sid now).1
  match env.generate_fast_summary with
  | .error e => (m, [], .raised e)
  | .ok error_count =>
    match env.queue_deep_analysis with
    | .error e => (m, [], .raised e)
    | .ok _ =>
      let b1 := bump_seq m sid
      let dur := ((Option.map (fun c => c.total_duration_ms) (alookup sid b1.1.sessions)).getD 0) / 1000
      let summary_msg : ServerMessage :=
        ⟨.summary_ready, b1.2, .summaryInfo s!"summary_{sid}" error_count dur⟩
      let r1 := b1.1.send_message sid summary_msg transport_ok now
      let b2 := bump_seq r1.1 sid
      (b2.1, r1.2.2, .ok (some ⟨.session_ended, b2.2, .endedInfo sid "completed" "processing"⟩))

/-- The `_handle_ping` method. -/
def handle_ping (m : SessionManager) (sid : String) :
    SessionManager × List (Nat × ServerMessage) × Outcome :=
  let b := bump_seq m sid
  (b.1, [], .ok (some ⟨.pong, b.2, .pongInfo⟩))

/-- The `_handle_get_status` method. -/
def handle_get_status (m : SessionManager) (sid : String) :
    SessionManager × List (Nat × ServerMessage) × Outcome :=
  let b := bump_seq m sid
  match alookup sid b.1.sessions with
  | none => (b.1, [], .ok none)
  | some c =>
    (b.1, [], .ok (some ⟨.status, b.2,
      .statusInfo c.session_id c.state c.turn_count c.total_duration_ms
        c.audio_chunks_received⟩))

/-- The `handle_message` dispatch method: looks the session up, records the
client seq, and routes by message type.  Message types absent from the
handler table (`session_start`, `session_resume`) fall through to
`return None`. -/
def handle_message (env : CollabEnv) (m : SessionManager) (session_id : String)
    (message : ClientMessage) (transport_ok : Bool) (now : Nat) :
    SessionManager × List (Nat × ServerMessage) × Outcome :=
  match m.get_session session_id with
  | none => (m, [], .ok (some (ServerMessage.error 0 .SESSION_NOT_FOUND "Session not found")))
  | some context =>
    let context := { context with client_seq := message.seq }
    let m := { m with sessions := aset session_id context m.sessions }
    match message.mtype with
    | .audio_config => handle_audio_config env m session_id message
    | .audio_commit => handle_audio_commit env m session_id message transport_ok now
    | .text_input => handle_text_input env m session_id message now
    | .session_end => handle_session_end env m session_id message transport_ok now
    | .ping => handle_ping m session_id
    | .get_status => handle_get_status m session_id
    | _ => (m, [], .ok none)

/-- The `handle_session_start` method.  `db_session_id` is the id the
storage collaborator allocates inside `SessionManager.create_session`. -/
def handle_session_start (env : CollabEnv) (m : SessionManager) (websocket : Nat)
    (user_id : String) (mode : SessionMode) (topic : Option String)
    (ielts_part : Option Nat) (db_session_id : String) (transport_ok : Bool) (now : Nat) :
    SessionManager × List (Nat × ServerMessage) × StartOutcome :=
  if !env.quota_allowed then
    let reason := env.quota_reason
    (m, [], .raised s!"Quota exceeded: {reason}")
  else
    let cr := m.create_session websocket user_id mode topic ielts_part db_session_id now
    let context := cr.2
    let sid := context.session_id
    match env.init_speech with
    | .error e => (cr.1, [], .raised e)
    | .ok _ =>
      match env.init_conversation with
      | .error e => (cr.1, [], .raised e)
      | .ok _ =>
        let b1 := bump_seq cr.1 sid
        let started_msg := ServerMessage.mk_session_started b1.2 sid mode
        let r1 := b1.1.send_message sid started_msg transport_ok now
        match env.generate_greeting with
        | .error e => (r1.1, r1.2.2, .raised e)
        | .ok greeting =>
          let b2 := bump_seq r1.1 sid
          let greeting_msg := ServerMessage.mk_ai_reply b2.2 greeting s!"turn_0_{sid}"
          let r2 := b2.1.send_message sid greeting_msg transport_ok now
          let m := r2.1.update_state sid .READY now
          match alookup sid m.sessions with
          | some c => (m, r1.2.2 ++ r2.2.2, .ok c)
          | none => (m, r1.2.2 ++ r2.2.2, .ok context)

/-- The `handle_session_resume` method.  The transmitted-message list holds
the replayed messages followed by the `session.resumed` confirmation. -/
def handle_session_resume (m : SessionManager) (websocket : Nat) (session_id : String)
    (last_seq : Nat) (db_has_session : Bool) (transport_ok : Bool) (now : Nat) :
    SessionManager × List (Nat × ServerMessage) × Option SessionContext :=
  let r := m.resume_session websocket session_id last_seq db_has_session now
  let replayed := r.2.2
  match r.2.1 with
  | none => (r.1, replayed.map (fun msg => (websocket, msg)), none)
  | some context =>
    let b := bump_seq r.1 context.session_id
    let payload :=
      (Option.map (fun c => c.to_recovery_payload) (alookup context.session_id b.1.sessions)).getD
        context.to_recovery_payload
    let resumed_msg : ServerMessage := ⟨.session_resumed, b.2, .recoveryInfo payload⟩
    let sr := b.1.send_message context.session_id resumed_msg transport_ok now
    (sr.1, replayed.map (fun msg => (websocket, msg)) ++ sr.2.2,
      alookup context.session_id sr.1.sessions)

end MessageHandler

/-! ## Observation helpers and per-connection traces -/

/-- The replay buffer of a session (empty when the session has none). -/
def buffer_of (m : SessionManager) (sid : String) : List ServerMessage :=
  (alookup sid m.message_buffers).getD []

/-- The stored server-side sequence counter of a session (0 when absent). -/
def server_seq_of (m : SessionManager) (sid : String) : Nat :=
  (Option.map (fun c => c.server_seq) (alookup sid m.sessions)).getD 0

/-- The stored lifecycle state of a session. -/
def state_of (m : SessionManager) (sid : String) : Option SessionState :=
  Option.map (fun c => c.state) (alookup sid m.sessions)

/-- The stored turn counter of a session. -/
def turns_of (m : SessionManager) (sid : String) : Option Nat :=
  Option.map (fun c => c.turn_count) (alookup sid m.sessions)

/-- Strictly increasing `seq` values along a list of server messages. -/
def seq_increasing (l : List ServerMessage) : Prop :=
  l.Pairwise (fun a b => a.seq < b.seq)

instance (l : List ServerMessage) : Decidable (seq_increasing l) := by
  unfold seq_increasing
  infer_instance

/-- One server-side emission towards a session, as every handler performs
it: draw a fresh seq with `context.increment_server_seq()` and either pass
the message through `SessionManager.send_message` (`buffered := true`) or
hand it straight back to the transport glue as the handler return value
(`buffered := false`, e.g. the `text.input` reply).  The second component
lists the messages that actually reach the wire. -/
structure Emission where
  mtype : ServerMessageType
  payload : ServerPayload
  buffered : Bool
  transport_ok : Bool
deriving DecidableEq

def emit_one (m : SessionManager) (sid : String) (e : Emission) (now : Nat) :
    SessionManager × List ServerMessage :=
  match alookup sid m.sessions with
  | none => (m, [])
  | some c =>
    let r := c.increment_server_seq
    let m := { m with sessions := aset sid r.2 m.sessions }
    let msg : ServerMessage := ⟨e.mtype, r.1, e.payload⟩
    if e.buffered then
      let r := m.send_message sid msg e.transport_ok now
      (r.1, r.2.2.map (fun p => p.2))
    else (m, [msg])

def emit_all (m : SessionManager) (sid : String) (es : List Emission) (now : Nat) :
    SessionManager × List ServerMessage :=
  match es with
  | [] => (m, [])
  | e :: rest =>
    let r1 := emit_one m sid e now
    let r2 := emit_all r1.1 sid rest now
    (r2.1, r1.2 ++ r2.2)

/-- The sequence of messages a single client connection observes for one
session: the messages replayed by `resume_session` followed by whatever
the subsequent emissions put on the wire. -/
def conn_trace (m : SessionManager) (websocket : Nat) (sid : String) (last_seq : Nat)
    (db_has_session : Bool) (now : Nat) (es : List Emission) : List ServerMessage :=
  let r := m.resume_session websocket sid last_seq db_has_session now
  r.2.2 ++ (emit_all r.1 sid es now).2

/-- Feed a list of already-built messages through `send_message` one by
one, keeping only the manager (used to describe the buffer contents after
an arbitrary send history). -/
def push_history (m : SessionManager) (sid : String) (msgs : List ServerMessage)
    (transport_ok : Bool) (now : Nat) : SessionManager :=
  msgs.foldl (fun m msg => (m.send_message sid msg transport_ok now).1) m

/-- The last `n` entries of a list (`buf[-n:]`). -/
def lastN (n : Nat) (l : List ServerMessage) : List ServerMessage :=
  l.drop (l.length - n)

/-- Well-formedness of a session's replay buffer: `seq` values strictly
increase along the buffer and never exceed the session's current
`server_seq` counter.  This holds for every reachable session (the buffer
starts empty and every send uses a freshly incremented seq). -/
def ReplayInv (m : SessionManager) (sid : String) : Prop :=
  seq_increasing (buffer_of m sid) ∧
  ∀ msg ∈ buffer_of m sid, msg.seq ≤ server_seq_of m sid

instance (m : SessionManager) (sid : String) : Decidable (ReplayInv m sid) := by
  unfold ReplayInv
  infer_instance

/-! ## Preservation lemmas -/

theorem handle_disconnect_buffers (m : SessionManager) (sid2 : String) (now : Nat) :
    (m.handle_disconnect sid2 now).message_buffers = m.message_buffers := by
  unfold SessionManager.handle_disconnect
  cases alookup sid2 m.sessions <;> rfl

theorem handle_disconnect_max (m : SessionManager) (sid2 : String) (now : Nat) :
    (m.handle_disconnect sid2 now).max_buffer_size = m.max_buffer_size := by
  unfold SessionManager.handle_disconnect
  cases alookup sid2 m.sessions <;> rfl

theorem server_seq_of_handle_disconnect (m : SessionManager) (sid2 : String) (now : Nat)
    (sid : String) :
    server_seq_of (m.handle_disconnect sid2 now) sid = server_seq_of m sid := by
  unfold SessionManager.handle_disconnect server_seq_of
  cases h : alookup sid2 m.sessions with
  | none => rfl
  | some c =>
    by_cases hs : sid2 = sid
    · subst hs
      simp [alookup_aset_self, h]
    · simp [alookup_aset_ne _ _ hs]

theorem turns_of_handle_disconnect (m : SessionManager) (sid2 : String) (now : Nat)
    (sid : String) :
    turns_of (m.handle_disconnect sid2 now) sid = turns_of m sid := by
  unfold SessionManager.handle_disconnect turns_of
  cases h : alookup sid2 m.sessions with
  | none => rfl
  | some c =>
    by_cases hs : sid2 = sid
    · subst hs
      simp [alookup_aset_self, h]
    · simp [alookup_aset_ne _ _ hs]

theorem buffer_append_sessions (m : SessionManager) (sid2 : String) (msg : ServerMessage) :
    (m.buffer_append sid2 msg).sessions = m.sessions := by
  unfold SessionManager.buffer_append
  cases alookup sid2 m.message_buffers <;> rfl

theorem buffer_append_connections (m : SessionManager) (sid2 : String) (msg : ServerMessage) :
    (m.buffer_append sid2 msg).connections = m.connections := by
  unfold SessionManager.buffer_append
  cases alookup sid2 m.message_buffers <;> rfl

theorem buffer_append_pending (m : SessionManager) (sid2 : String) (msg : ServerMessage) :
    (m.buffer_append sid2 msg).pending_reconnect = m.pending_reconnect := by
  unfold SessionManager.buffer_append
  cases alookup sid2 m.message_buffers <;> rfl

theorem buffer_append_max (m : SessionManager) (sid2 : String) (msg : ServerMessage) :
    (m.buffer_append sid2 msg).max_buffer_size = m.max_buffer_size := by
  unfold SessionManager.buffer_append
  cases alookup sid2 m.message_buffers <;> rfl

/-- The buffer trim `buf = buf[-max:] if len(buf) > max` equals keeping the
last `max` entries unconditionally. -/
theorem trim_eq (cap : Nat) (l : List ServerMessage) :
    (if l.length > cap then l.drop (l.length - cap) else l) = lastN cap l := by
  unfold lastN
  by_cases h : l.length > cap
  · simp [h]
  · simp [h, Nat.sub_eq_zero_of_le (Nat.le_of_not_lt h)]

theorem buffer_append_self (m : SessionManager) (sid : String) (msg : ServerMessage)
    (buf : List ServerMessage) (h : alookup sid m.message_buffers = some buf) :
    alookup sid (m.buffer_append sid msg).message_buffers
      = some (lastN m.max_buffer_size (buf ++ [msg])) := by
  unfold SessionManager.buffer_append
  simp only [h]
  rw [trim_eq]
  simp [alookup_aset_self]

theorem send_message_max (m : SessionManager) (sid2 : String) (msg : ServerMessage)
    (tok : Bool) (now : Nat) :
    ((m.send_message sid2 msg tok now).1).max_buffer_size = m.max_buffer_size := by
  unfold SessionManager.send_message
  cases hc : alookup sid2 (m.buffer_append sid2 msg).connections <;>
    cases tok <;>
    simp [handle_disconnect_max, buffer_append_max, hc]

theorem server_seq_of_send_message (m : SessionManager) (sid2 : String)
    (msg : ServerMessage) (tok : Bool) (now : Nat) (sid : String) :
    server_seq_of ((m.send_message sid2 msg tok now).1) sid = server_seq_of m sid := by
  unfold SessionManager.send_message
  have hs : server_seq_of (m.buffer_append sid2 msg) sid = server_seq_of m sid := by
    unfold server_seq_of
    rw [buffer_append_sessions]
  cases hc : alookup sid2 (m.buffer_append sid2 msg).connections <;>
    cases tok <;>
    simp [server_seq_of_handle_disconnect, hs, hc]

theorem turns_of_send_message (m : SessionManager) (sid2 : String)
    (msg : ServerMessage) (tok : Bool) (now : Nat) (sid : String) :
    turns_of ((m.send_message sid2 msg tok now).1) sid = turns_of m sid := by
  unfold SessionManager.send_message
  have hs : turns_of (m.buffer_append sid2 msg) sid = turns_of m sid := by
    unfold turns_of
    rw [buffer_append_sessions]
  cases hc : alookup sid2 (m.buffer_append sid2 msg).connections <;>
    cases tok <;>
    simp [turns_of_handle_disconnect, hs, hc]

theorem send_message_buffer_self (m : SessionManager) (sid : String)
    (msg : ServerMessage) (tok : Bool) (now : Nat) (buf : List ServerMessage)
    (h : alookup sid m.message_buffers = some buf) :
    alookup sid ((m.send_message sid msg tok now).1).message_buffers
      = some (lastN m.max_buffer_size (buf ++ [msg])) := by
  unfold SessionManager.send_message
  have hb := buffer_append_self m sid msg buf h
  cases hc : alookup sid (m.buffer_append sid msg).connections with
  | none =>
    simp only [hc]
    exact hb
  | some ws =>
    cases tok with
    | true =>
      simp only [hc, if_pos]
      exact hb
    | false =>
      simp only [hc, Bool.false_eq_true, if_false]
      rw [handle_disconnect_buffers]
      exact hb

theorem send_message_delivered (m : SessionManager) (sid : String)
    (msg : ServerMessage) (tok : Bool) (now : Nat) :
    (m.send_message sid msg tok now).2.2 = [] ∨
    ∃ ws, (m.send_message sid msg tok now).2.2 = [(ws, msg)] := by
  unfold SessionManager.send_message
  cases hc : alookup sid (m.buffer_append sid msg).connections <;>
    cases tok <;>
    simp [hc]

/-! ## Emission and resume specifications -/

theorem emit_one_spec (m : SessionManager) (sid : String) (e : Emission) (now : Nat) :
    server_seq_of m sid ≤ server_seq_of (emit_one m sid e now).1 sid ∧
    ((emit_one m sid e now).2 = [] ∨
      ((emit_one m sid e now).2 = [⟨e.mtype, server_seq_of m sid + 1, e.payload⟩] ∧
        server_seq_of (emit_one m sid e now).1 sid = server_seq_of m sid + 1)) := by
  unfold emit_one
  cases h : alookup sid m.sessions with
  | none => exact ⟨le_refl _, Or.inl rfl⟩
  | some c =>
    have hseq : server_seq_of m sid = c.server_seq := by
      unfold server_seq_of
      rw [h]
      rfl
    simp only [SessionContext.increment_server_seq]
    have hseq1 :
        server_seq_of
          { m with sessions := aset sid { c with server_seq := c.server_seq + 1 } m.sessions }
          sid = c.server_seq + 1 := by
      unfold server_seq_of
      rw [alookup_aset_self]
      rfl
    cases hbuf : e.buffered with
    | false =>
      simp only [Bool.false_eq_true, if_false]
      refine ⟨?_, Or.inr ⟨?_, ?_⟩⟩
      · rw [hseq, hseq1]
        exact Nat.le_succ _
      · rw [hseq]
      · rw [hseq, hseq1]
    | true =>
      simp only [if_pos]
      constructor
      · rw [hseq, server_seq_of_send_message, hseq1]
        exact Nat.le_succ _
      · rcases send_message_delivered
            { m with sessions := aset sid { c with server_seq := c.server_seq + 1 } m.sessions }
            sid ⟨e.mtype, c.server_seq + 1, e.payload⟩ e.transport_ok now with hd | ⟨ws, hd⟩
        · left
          rw [hd]
          rfl
        · right
          constructor
          · rw [hd, hseq]
            rfl
          · rw [server_seq_of_send_message, hseq1, hseq]

theorem emit_all_spec (sid : String) (now : Nat) :
    ∀ (es : List Emission) (m : SessionManager),
      server_seq_of m sid ≤ server_seq_of (emit_all m sid es now).1 sid ∧
      (∀ x ∈ (emit_all m sid es now).2,
        server_seq_of m sid < x.seq ∧ x.seq ≤ server_seq_of (emit_all m sid es now).1 sid) ∧
      seq_increasing (emit_all m sid es now).2 := by
  intro es
  induction es with
  | nil =>
    intro m
    refine ⟨le_refl _, ?_, ?_⟩
    · intro x hx
      simp [emit_all] at hx
    · simp [emit_all, seq_increasing]
  | cons e rest ih =>
    intro m
    obtain ⟨h1le, h1del⟩ := emit_one_spec m sid e now
    obtain ⟨h2le, h2mem, h2sort⟩ := ih (emit_one m sid e now).1
    have hgoal1 : (emit_all m sid (e :: rest) now).1 = (emit_all (emit_one m sid e now).1 sid rest now).1 := rfl
    have hgoal2 : (emit_all m sid (e :: rest) now).2
        = (emit_one m sid e now).2 ++ (emit_all (emit_one m sid e now).1 sid rest now).2 := rfl
    rw [hgoal1, hgoal2]
    refine ⟨le_trans h1le h2le, ?_, ?_⟩
    · intro x hx
      rcases List.mem_append.mp hx with hx1 | hx2
      · rcases h1del with hnil | ⟨hone, hseq1⟩
        · rw [hnil] at hx1
          cases hx1
        · rw [hone] at hx1
          rcases List.mem_singleton.mp hx1 with rfl
          refine ⟨Nat.lt_succ_self _, ?_⟩
          calc server_seq_of m sid + 1 = server_seq_of (emit_one m sid e now).1 sid := hseq1.symm
            _ ≤ _ := h2le
      · have := h2mem x hx2
        exact ⟨lt_of_le_of_lt h1le this.1, this.2⟩
    · apply List.pairwise_append.mpr
      refine ⟨?_, h2sort, ?_⟩
      · rcases h1del with hnil | ⟨hone, _⟩
        · rw [hnil]
          exact List.Pairwise.nil
        · rw [hone]
          exact List.pairwise_singleton _ _
      · intro a ha b hb
        rcases h1del with hnil | ⟨hone, hseq1⟩
        · rw [hnil] at ha
          cases ha
        · rw [hone] at ha
          rcases List.mem_singleton.mp ha with rfl
          have hb2 := (h2mem b hb).1
          rw [hseq1] at hb2
          exact hb2

theorem resume_session_server_seq (m : SessionManager) (ws : Nat) (sid : String)
    (k : Nat) (db : Bool) (now : Nat) :
    server_seq_of ((m.resume_session ws sid k db now).1) sid = server_seq_of m sid := by
  unfold SessionManager.resume_session
  cases h : alookup sid m.sessions with
  | none => rfl
  | some context =>
    have hbase : server_seq_of m sid = context.server_seq := by
      unfold server_seq_of
      rw [h]
      rfl
    cases hp : alookup sid m.pending_reconnect with
    | some expiry =>
      by_cases he : now > expiry
      · simp only [if_pos he]
      · simp only [if_neg he]
        unfold server_seq_of
        rw [alookup_aset_self, h]
        simp
    | none =>
      unfold server_seq_of
      rw [alookup_aset_self, h]
      simp

theorem resume_session_replayed (m : SessionManager) (ws : Nat) (sid : String)
    (k : Nat) (db : Bool) (now : Nat) :
    (m.resume_session ws sid k db now).2.2 = [] ∨
    (m.resume_session ws sid k db now).2.2
      = (buffer_of m sid).filter (fun msg => msg.seq > k) := by
  unfold SessionManager.resume_session
  cases h : alookup sid m.sessions with
  | none => exact Or.inl rfl
  | some context =>
    cases hp : alookup sid m.pending_reconnect with
    | some expiry =>
      by_cases he : now > expiry
      · left
        simp only [if_pos he]
      · simp only [if_neg he]
        right
        unfold buffer_of
        cases hb : alookup sid m.message_buffers with
        | none => simp [hb]
        | some buffer => simp [hb]
    | none =>
      right
      unfold buffer_of
      cases hb : alookup sid m.message_buffers with
      | none => simp [hb]
      | some buffer => simp [hb]

theorem turns_of_update_state (m : SessionManager) (sid2 : String) (st : SessionState)
    (now : Nat) (sid : String) :
    turns_of (m.update_state sid2 st now) sid = turns_of m sid := by
  unfold SessionManager.update_state turns_of
  cases h2 : alookup sid2 m.sessions with
  | none => rfl
  | some c =>
    by_cases hs : sid2 = sid
    · subst hs
      simp [alookup_aset_self, h2]
    · simp [alookup_aset_ne _ _ hs]

theorem server_seq_of_update_state (m : SessionManager) (sid2 : String) (st : SessionState)
    (now : Nat) (sid : String) :
    server_seq_of (m.update_state sid2 st now) sid = server_seq_of m sid := by
  unfold SessionManager.update_state server_seq_of
  cases h2 : alookup sid2 m.sessions with
  | none => rfl
  | some c =>
    by_cases hs : sid2 = sid
    · subst hs
      simp [alookup_aset_self, h2]
    · simp [alookup_aset_ne _ _ hs]

theorem state_of_update_state_self (m : SessionManager) (sid : String) (st : SessionState)
    (now : Nat) (ctx : SessionContext) (h : alookup sid m.sessions = some ctx) :
    state_of (m.update_state sid st now) sid = some st := by
  unfold SessionManager.update_state state_of
  rw [h]
  simp [alookup_aset_self]

theorem turns_of_increment_turn_self (m : SessionManager) (sid : String) :
    turns_of (m.increment_turn sid) sid
      = Option.map (fun n => n + 1) (turns_of m sid) := by
  unfold SessionManager.increment_turn turns_of
  cases h : alookup sid m.sessions with
  | none => simp [h]
  | some c => simp [h, alookup_aset_self]

theorem state_of_increment_turn (m : SessionManager) (sid2 sid : String) :
    state_of (m.increment_turn sid2) sid = state_of m sid := by
  unfold SessionManager.increment_turn state_of
  cases h2 : alookup sid2 m.sessions with
  | none => rfl
  | some c =>
    by_cases hs : sid2 = sid
    · subst hs
      simp [alookup_aset_self, h2]
    · simp [alookup_aset_ne _ _ hs]

theorem turns_of_bump_seq (m : SessionManager) (sid2 sid : String) :
    turns_of ((MessageHandler.bump_seq m sid2).1) sid = turns_of m sid := by
  unfold MessageHandler.bump_seq turns_of
  cases h2 : alookup sid2 m.sessions with
  | none => rfl
  | some c =>
    simp only [SessionContext.increment_server_seq]
    by_cases hs : sid2 = sid
    · subst hs
      simp [alookup_aset_self, h2]
    · simp [alookup_aset_ne _ _ hs]

theorem state_of_bump_seq (m : SessionManager) (sid2 sid : String) :
    state_of ((MessageHandler.bump_seq m sid2).1) sid = state_of m sid := by
  unfold MessageHandler.bump_seq state_of
  cases h2 : alookup sid2 m.sessions with
  | none => rfl
  | some c =>
    simp only [SessionContext.increment_server_seq]
    by_cases hs : sid2 = sid
    · subst hs
      simp [alookup_aset_self, h2]
    · simp [alookup_aset_ne _ _ hs]

theorem handle_disconnect_window (m : SessionManager) (sid2 : String) (now : Nat) :
    (m.handle_disconnect sid2 now).reconnect_window = m.reconnect_window := by
  unfold SessionManager.handle_disconnect
  cases alookup sid2 m.sessions <;> rfl

theorem state_of_handle_disconnect_self (m : SessionManager) (sid : String) (now : Nat)
    (ctx : SessionContext) (h : alookup sid m.sessions = some ctx) :
    state_of (m.handle_disconnect sid now) sid = some .PAUSED := by
  unfold SessionManager.handle_disconnect state_of
  rw [h]
  simp [alookup_aset_self]

theorem sessions_of_handle_disconnect_self (m : SessionManager) (sid : String) (now : Nat)
    (ctx : SessionContext) (h : alookup sid m.sessions = some ctx) :
    alookup sid (m.handle_disconnect sid now).sessions
      = some { ctx with state := .PAUSED } := by
  unfold SessionManager.handle_disconnect
  rw [h]
  simp [alookup_aset_self]

theorem pending_of_handle_disconnect_self (m : SessionManager) (sid : String) (now : Nat)
    (ctx : SessionContext) (h : alookup sid m.sessions = some ctx) :
    alookup sid (m.handle_disconnect sid now).pending_reconnect
      = some (now + m.reconnect_window) := by
  unfold SessionManager.handle_disconnect
  rw [h]
  simp [alookup_aset_self]

/-! ## C2: seq monotonicity per connection -/

/-- C2: for every session, the `seq` values of server messages delivered to
a client over one connection — the messages replayed by `resume_session`
followed by every later emission put on the wire — are strictly increasing,
hence non-decreasing with each value delivered at most once.  `ReplayInv`
is the replay-buffer well-formedness that every reachable session enjoys
(buffer seqs strictly increase and never exceed the stored `server_seq`);
a connection opened by `create_session` is the sub-case with an empty
replay. -/
theorem seq_monotonic_per_connection (m : SessionManager) (websocket : Nat) (sid : String)
    (last_seq : Nat) (db_has : Bool) (now : Nat) (es : List Emission)
    (hinv : ReplayInv m sid) :
    seq_increasing (conn_trace m websocket sid last_seq db_has now es) := by
  obtain ⟨hsort, hbound⟩ := hinv
  show seq_increasing
    ((m.resume_session websocket sid last_seq db_has now).2.2 ++
      (emit_all (m.resume_session websocket sid last_seq db_has now).1 sid es now).2)
  have hss : server_seq_of (m.resume_session websocket sid last_seq db_has now).1 sid
      = server_seq_of m sid := resume_session_server_seq m websocket sid last_seq db_has now
  obtain ⟨hEle, hEmem, hEsort⟩ :=
    emit_all_spec sid now es (m.resume_session websocket sid last_seq db_has now).1
  apply List.pairwise_append.mpr
  refine ⟨?_, hEsort, ?_⟩
  · rcases resume_session_replayed m websocket sid last_seq db_has now with hre | hre
    · rw [hre]
      exact List.Pairwise.nil
    · rw [hre]
      exact List.Pairwise.filter _ hsort
  · intro a ha b hb
    rcases resume_session_replayed m websocket sid last_seq db_has now with hre | hre
    · rw [hre] at ha
      cases ha
    · rw [hre] at ha
      have ham : a ∈ buffer_of m sid := List.mem_of_mem_filter ha
      have h1 : a.seq ≤ server_seq_of m sid := hbound a ham
      have h2 : server_seq_of m sid < b.seq := by
        rw [← hss]
        exact (hEmem b hb).1
      exact lt_of_le_of_lt h1 h2

/-- A concrete session context used by the witnesses: two server messages
already sent and buffered. -/
def exCtx : SessionContext :=
  { session_id := "s1", user_id := "U1", state := .PAUSED, mode := .free_speaking,
    topic := some "travel", server_seq := 2, started_at := 0, last_activity_at := 5 }

/-- A concrete manager holding one paused session with a two-entry replay
buffer, as left behind by a greeting plus one reply followed by a
disconnect at time 5. -/
def exM : SessionManager :=
  { sessions := [("s1", exCtx)],
    connections := [],
    pending_reconnect := [("s1", 305)],
    message_buffers := [("s1",
      [⟨.session_started, 1, .startedInfo "s1" .free_speaking "active"⟩,
       ⟨.ai_reply, 2, .replyInfo "hello" "turn_0_s1"⟩])] }

theorem seq_monotonic_per_connection_witness :
    ReplayInv exM "s1" ∧
    seq_increasing (conn_trace exM 9 "s1" 1 true 10
      [⟨.ai_typing, .typingInfo true, true, true⟩,
       ⟨.ai_reply, .replyInfo "r" "turn_1_s1", true, true⟩]) :=
  ⟨by decide,
    seq_monotonic_per_connection exM 9 "s1" 1 true 10
      [⟨.ai_typing, .typingInfo true, true, true⟩,
       ⟨.ai_reply, .replyInfo "r" "turn_1_s1", true, true⟩]
      (by decide)⟩

/-! ## C4: disconnect is not idempotent on the reconnection window -/

/-- A concrete manager with one connected READY session. -/
def exCtxReady : SessionContext :=
  { session_id := "s1", user_id := "U1", state := .READY, mode := .free_speaking,
    topic := some "travel", server_seq := 2, started_at := 0, last_activity_at := 0 }

def exMready : SessionManager :=
  { sessions := [("s1", exCtxReady)],
    connections := [("s1", 7)],
    pending_reconnect := [],
    message_buffers := [("s1", [])] }

/-- C4 counterexample: `handle_disconnect` never checks for `PAUSED`; a
second disconnect 10 seconds after the first overwrites the
reconnection-window expiry 300 with a fresh 310, extending the window —
refuting the claim that the second call does not reset or extend the
expiry set by the first call. -/
theorem disconnect_twice_extends_window :
    alookup "s1" ((exMready.handle_disconnect "s1" 0).handle_disconnect "s1" 10).pending_reconnect
        = some 310 ∧
    alookup "s1" (exMready.handle_disconnect "s1" 0).pending_reconnect = some 300 := by
  constructor <;> decide

/-- C4 amended: a second `handle_disconnect` leaves the session `PAUSED`
(the state part of the claim holds), but it unconditionally restarts the
reconnection window: after the second call the expiry is `now₂ +
reconnect_window`, so the window is reset — and extended whenever the
clock advanced — rather than left at the expiry set by the first call.
The two calls agree only when they carry the same clock value. -/
theorem disconnect_twice_spec (m : SessionManager) (sid : String) (now1 now2 : Nat)
    (ctx : SessionContext) (h : alookup sid m.sessions = some ctx) :
    state_of (m.handle_disconnect sid now1) sid = some .PAUSED ∧
    state_of ((m.handle_disconnect sid now1).handle_disconnect sid now2) sid = some .PAUSED ∧
    alookup sid (m.handle_disconnect sid now1).pending_reconnect
      = some (now1 + m.reconnect_window) ∧
    alookup sid ((m.handle_disconnect sid now1).handle_disconnect sid now2).pending_reconnect
      = some (now2 + m.reconnect_window) := by
  have h1 := sessions_of_handle_disconnect_self m sid now1 ctx h
  refine ⟨state_of_handle_disconnect_self m sid now1 ctx h, ?_, ?_, ?_⟩
  · exact state_of_handle_disconnect_self _ sid now2 _ h1
  · exact pending_of_handle_disconnect_self m sid now1 ctx h
  · rw [pending_of_handle_disconnect_self _ sid now2 _ h1, handle_disconnect_window]

theorem disconnect_twice_spec_witness :
    alookup "s1" exMready.sessions = some exCtxReady ∧
    (state_of (exMready.handle_disconnect "s1" 0) "s1" = some .PAUSED ∧
      state_of ((exMready.handle_disconnect "s1" 0).handle_disconnect "s1" 10) "s1"
        = some .PAUSED ∧
      alookup "s1" (exMready.handle_disconnect "s1" 0).pending_reconnect
        = some (0 + exMready.reconnect_window) ∧
      alookup "s1" ((exMready.handle_disconnect "s1" 0).handle_disconnect "s1" 10).pending_reconnect
        = some (10 + exMready.reconnect_window)) :=
  ⟨by decide, disconnect_twice_spec exMready "s1" 0 10 exCtxReady (by decide)⟩

/-! ## C1: the dispatcher has no state gate -/

theorem send_message_mtype (m : SessionManager) (sid : String) (msg : ServerMessage)
    (tok : Bool) (now : Nat) (p : Nat × ServerMessage)
    (hp : p ∈ (m.send_message sid msg tok now).2.2) : p.2 = msg := by
  rcases send_message_delivered m sid msg tok now with hd | ⟨ws, hd⟩
  · rw [hd] at hp
    cases hp
  · rw [hd] at hp
    rcases List.mem_singleton.mp hp with rfl
    rfl

theorem handle_audio_commit_spec (env : CollabEnv) (m : SessionManager) (sid : String)
    (message : ClientMessage) (tok : Bool) (now : Nat) (ctx : SessionContext)
    (t r : String)
    (h : alookup sid m.sessions = some ctx)
    (hf : env.finalize_utterance = .ok t)
    (ht : ¬ t = "")
    (hfe : env.get_audio_features = .ok ())
    (hg : env.generate_response = .ok r) :
    (MessageHandler.handle_audio_commit env m sid message tok now).2.2 = .ok none ∧
    turns_of (MessageHandler.handle_audio_commit env m sid message tok now).1 sid
      = some (ctx.turn_count + 1) ∧
    ∀ p ∈ (MessageHandler.handle_audio_commit env m sid message tok now).2.1,
      (p.2).mtype ≠ .session_error := by
  have hturn : turns_of m sid = some ctx.turn_count := by
    unfold turns_of
    rw [h]
    rfl
  unfold MessageHandler.handle_audio_commit
  simp only [hf, hfe, hg, if_neg ht]
  refine ⟨by trivial, ?_, ?_⟩
  · simp only [turns_of_update_state, turns_of_send_message, turns_of_bump_seq,
      turns_of_increment_turn_self, hturn]
    rfl
  · intro p hp
    rcases List.mem_append.mp hp with h1 | h2
    · have hpm := send_message_mtype _ _ _ _ _ _ h1
      rw [hpm]
      simp
    · have hpm := send_message_mtype _ _ _ _ _ _ h2
      rw [hpm]
      simp [ServerMessage.mk_ai_reply]

/-- C1 amended: the dispatcher performs no state-based validation at all:
`handle_message` routes `audio.config` / `audio.commit` / `text.input` to
their handlers in every lifecycle state.  In particular, for a session in
any state (including `PROCESSING`), an `audio.commit` whose collaborator
calls succeed with a non-empty transcript is executed: the handler returns
normally, `turn_count` is incremented, and no `session.error` message (no
typed invalid-state rejection) is produced.  Note the statement carries no
hypothesis on `ctx.state`. -/
theorem dispatcher_no_state_gate (env : CollabEnv) (m : SessionManager) (sid : String)
    (message : ClientMessage) (tok : Bool) (now : Nat) (ctx : SessionContext)
    (t r : String)
    (h : alookup sid m.sessions = some ctx)
    (hmt : message.mtype = .audio_commit)
    (hf : env.finalize_utterance = .ok t)
    (ht : ¬ t = "")
    (hfe : env.get_audio_features = .ok ())
    (hg : env.generate_response = .ok r) :
    (MessageHandler.handle_message env m sid message tok now).2.2 = .ok none ∧
    turns_of (MessageHandler.handle_message env m sid message tok now).1 sid
      = some (ctx.turn_count + 1) ∧
    ∀ p ∈ (MessageHandler.handle_message env m sid message tok now).2.1,
      (p.2).mtype ≠ .session_error := by
  unfold MessageHandler.handle_message SessionManager.get_session
  simp only [h, hmt]
  exact handle_audio_commit_spec env _ sid message tok now
    { ctx with client_seq := message.seq } t r
    (alookup_aset_self sid _ m.sessions) hf ht hfe hg

def exCtxProc : SessionContext := { exCtxReady with state := .PROCESSING }

def exMproc : SessionManager :=
  { sessions := [("s1", exCtxProc)],
    connections := [("s1", 7)],
    pending_reconnect := [],
    message_buffers := [("s1", [])] }

def exEnvOk : CollabEnv :=
  { finalize_utterance := .ok "I go school yesterday", generate_response := .ok "Nice!" }

/-- C1 counterexample: an `audio.commit` dispatched while the session is in
`PROCESSING` is executed normally — the handler returns `.ok`, the turn
counter moves from 0 to 1, and the only messages produced are `ai.typing`
and `ai.reply` (no `session.error`, hence no typed invalid-state
rejection). -/
theorem audio_commit_in_processing_executes :
    turns_of (MessageHandler.handle_message exEnvOk exMproc "s1"
      ⟨.audio_commit, 3, .emptyP⟩ true 20).1 "s1" = some 1 ∧
    (MessageHandler.handle_message exEnvOk exMproc "s1"
      ⟨.audio_commit, 3, .emptyP⟩ true 20).2.2 = .ok none ∧
    ((MessageHandler.handle_message exEnvOk exMproc "s1"
      ⟨.audio_commit, 3, .emptyP⟩ true 20).2.1.map (fun p => p.2.mtype))
      = [.ai_typing, .ai_reply] := by
  decide

theorem dispatcher_no_state_gate_witness :
    (alookup "s1" exMproc.sessions = some exCtxProc ∧
      (⟨.audio_commit, 3, .emptyP⟩ : ClientMessage).mtype = .audio_commit ∧
      exEnvOk.finalize_utterance = .ok "I go school yesterday" ∧
      ¬ ("I go school yesterday" = "") ∧
      exEnvOk.get_audio_features = .ok () ∧
      exEnvOk.generate_response = .ok "Nice!") ∧
    ((MessageHandler.handle_message exEnvOk exMproc "s1"
        ⟨.audio_commit, 3, .emptyP⟩ true 20).2.2 = .ok none ∧
      turns_of (MessageHandler.handle_message exEnvOk exMproc "s1"
        ⟨.audio_commit, 3, .emptyP⟩ true 20).1 "s1" = some (exCtxProc.turn_count + 1) ∧
      ∀ p ∈ (MessageHandler.handle_message exEnvOk exMproc "s1"
        ⟨.audio_commit, 3, .emptyP⟩ true 20).2.1, (p.2).mtype ≠ .session_error) :=
  ⟨⟨by decide, rfl, rfl, by decide, rfl, rfl⟩,
    dispatcher_no_state_gate exEnvOk exMproc "s1" ⟨.audio_commit, 3, .emptyP⟩ true 20
      exCtxProc "I go school yesterday" "Nice!" (by decide) rfl rfl (by decide) rfl rfl⟩

/-! ## C5: collaborator failures escape the dispatcher -/

theorem sessions_of_update_state_self (m : SessionManager) (sid : String)
    (st : SessionState) (now : Nat) (ctx : SessionContext)
    (h : alookup sid m.sessions = some ctx) :
    alookup sid (m.update_state sid st now).sessions
      = some { ctx with state := st, last_activity_at := now } := by
  unfold SessionManager.update_state
  rw [h]
  simp [alookup_aset_self]

theorem state_of_send_message_ok (m : SessionManager) (sid2 : String)
    (msg : ServerMessage) (now : Nat) (sid : String) :
    state_of ((m.send_message sid2 msg true now).1) sid = state_of m sid := by
  unfold SessionManager.send_message
  have hs : state_of (m.buffer_append sid2 msg) sid = state_of m sid := by
    unfold state_of
    rw [buffer_append_sessions]
  cases hc : alookup sid2 (m.buffer_append sid2 msg).connections <;> simp [hc, hs]

/-- C5 amended: when speech finalization fails during `audio.commit`
handling, or reply generation fails during `audio.commit` or `text.input`
handling, the collaborator exception escapes the dispatcher unhandled
(`.raised`): no typed server-error message is sent (in the `audio.commit`
reply case only the `ai.typing` indicator has gone out), the Session
Record is left in the already-mutated `PROCESSING` state rather than its
pre-call state, and `turn_count` is unchanged.  In the `audio.commit`
reply-generation case the `PROCESSING` conclusion assumes the preceding
typing-indicator send did not itself fail at the transport
(`transport_ok = true`) — a transport failure there would instead
implicitly disconnect the session to `PAUSED` before the reply call. -/
theorem collaborator_failure_escapes (env : CollabEnv) (m : SessionManager) (sid : String)
    (message : ClientMessage) (tok : Bool) (now : Nat) (ctx : SessionContext)
    (e : String)
    (h : alookup sid m.sessions = some ctx)
    (hcase :
      (message.mtype = .audio_commit ∧ env.finalize_utterance = .error e) ∨
      (message.mtype = .audio_commit ∧
        (∃ t, env.finalize_utterance = .ok t ∧ ¬ t = "") ∧
        env.get_audio_features = .ok () ∧
        env.generate_response = .error e ∧ tok = true) ∨
      (message.mtype = .text_input ∧
        ¬ message.payload.getText = "" ∧
        env.generate_response = .error e)) :
    (MessageHandler.handle_message env m sid message tok now).2.2 = .raised e ∧
    state_of (MessageHandler.handle_message env m sid message tok now).1 sid
      = some .PROCESSING ∧
    turns_of (MessageHandler.handle_message env m sid message tok now).1 sid
      = some ctx.turn_count ∧
    ∀ p ∈ (MessageHandler.handle_message env m sid message tok now).2.1,
      (p.2).mtype ≠ .session_error := by
  have hm1 : alookup sid
      ({ m with sessions := aset sid { ctx with client_seq := message.seq } m.sessions }).sessions
      = some { ctx with client_seq := message.seq } := alookup_aset_self sid _ m.sessions
  rcases hcase with ⟨hmt, hff⟩ | ⟨hmt, ⟨t, hf, ht⟩, hfe, hg, htok⟩ | ⟨hmt, ht, hg⟩
  · unfold MessageHandler.handle_message SessionManager.get_session
    simp only [h, hmt]
    unfold MessageHandler.handle_audio_commit
    simp only [hff]
    refine ⟨by trivial, ?_, ?_, ?_⟩
    · exact state_of_update_state_self _ sid _ now _ hm1
    · rw [turns_of_update_state]
      unfold turns_of
      rw [alookup_aset_self]
      rfl
    · intro p hp
      cases hp
  · subst htok
    unfold MessageHandler.handle_message SessionManager.get_session
    simp only [h, hmt]
    unfold MessageHandler.handle_audio_commit
    simp only [hf, if_neg ht, hfe, hg]
    refine ⟨by trivial, ?_, ?_, ?_⟩
    · rw [state_of_send_message_ok, state_of_bump_seq]
      exact state_of_update_state_self _ sid _ now _
        (sessions_of_update_state_self _ sid _ now _ hm1)
    · simp only [turns_of_send_message, turns_of_bump_seq, turns_of_update_state]
      unfold turns_of
      rw [alookup_aset_self]
      rfl
    · intro p hp
      have hpm := send_message_mtype _ _ _ _ _ _ hp
      rw [hpm]
      simp
  · unfold MessageHandler.handle_message SessionManager.get_session
    simp only [h, hmt]
    unfold MessageHandler.handle_text_input
    simp only [if_neg ht, hg]
    refine ⟨by trivial, ?_, ?_, ?_⟩
    · exact state_of_update_state_self _ sid _ now _ hm1
    · rw [turns_of_update_state]
      unfold turns_of
      rw [alookup_aset_self]
      rfl
    · intro p hp
      cases hp

def exEnvFail : CollabEnv := { generate_response := .error "boom" }

/-- C5 counterexample: with the session `READY`, a `text.input` whose reply
generation raises leaves the dispatcher with an escaped exception, sends
no typed server-error message (nothing is sent at all), and leaves the
session in `PROCESSING` — not its pre-call `READY` state. -/
theorem collaborator_failure_not_contained :
    (MessageHandler.handle_message exEnvFail exMready "s1"
      ⟨.text_input, 2, .textP "hi"⟩ true 20).2.2 = .raised "boom" ∧
    state_of (MessageHandler.handle_message exEnvFail exMready "s1"
      ⟨.text_input, 2, .textP "hi"⟩ true 20).1 "s1" = some .PROCESSING ∧
    (MessageHandler.handle_message exEnvFail exMready "s1"
      ⟨.text_input, 2, .textP "hi"⟩ true 20).2.1 = [] := by
  decide

def exEnvFail2 : CollabEnv :=
  { finalize_utterance := .ok "hi", generate_response := .error "boom" }

theorem collaborator_failure_escapes_witness :
    (alookup "s1" exMready.sessions = some exCtxReady ∧
      (((⟨.audio_commit, 2, .emptyP⟩ : ClientMessage).mtype = .audio_commit ∧
          exEnvFail2.finalize_utterance = .error "boom") ∨
        ((⟨.audio_commit, 2, .emptyP⟩ : ClientMessage).mtype = .audio_commit ∧
          (∃ t, exEnvFail2.finalize_utterance = .ok t ∧ ¬ t = "") ∧
          exEnvFail2.get_audio_features = .ok () ∧
          exEnvFail2.generate_response = .error "boom" ∧ true = true) ∨
        ((⟨.audio_commit, 2, .emptyP⟩ : ClientMessage).mtype = .text_input ∧
          ¬ (⟨.audio_commit, 2, .emptyP⟩ : ClientMessage).payload.getText = "" ∧
          exEnvFail2.generate_response = .error "boom"))) ∧
    ((MessageHandler.handle_message exEnvFail2 exMready "s1"
        ⟨.audio_commit, 2, .emptyP⟩ true 20).2.2 = .raised "boom" ∧
      state_of (MessageHandler.handle_message exEnvFail2 exMready "s1"
        ⟨.audio_commit, 2, .emptyP⟩ true 20).1 "s1" = some .PROCESSING ∧
      turns_of (MessageHandler.handle_message exEnvFail2 exMready "s1"
        ⟨.audio_commit, 2, .emptyP⟩ true 20).1 "s1" = some exCtxReady.turn_count ∧
      ∀ p ∈ (MessageHandler.handle_message exEnvFail2 exMready "s1"
        ⟨.audio_commit, 2, .emptyP⟩ true 20).2.1, (p.2).mtype ≠ .session_error) :=
  ⟨⟨by decide, Or.inr (Or.inl ⟨rfl, ⟨"hi", rfl, by decide⟩, rfl, rfl, rfl⟩)⟩,
    collaborator_failure_escapes exEnvFail2 exMready "s1" ⟨.audio_commit, 2, .emptyP⟩
      true 20 exCtxReady "boom" (by decide)
      (Or.inr (Or.inl ⟨rfl, ⟨"hi", rfl, by decide⟩, rfl, rfl, rfl⟩))⟩

/-! ## C6: session creation plus greeting leaves server_seq at 2 -/

def exM0 : SessionManager := {}

def exEnvStart : CollabEnv := { generate_greeting := .ok "Hello! Where do you want to travel?" }

/-- The session-start scenario of the spec: user `U1`, mode
`free_speaking`, topic `"travel"`, storage allocating id `sess1`, quota
allowed, all collaborators succeeding, greeting sent. -/
def c6_res : SessionManager × List (Nat × ServerMessage) × StartOutcome :=
  MessageHandler.handle_session_start exEnvStart exM0 7 "U1" .free_speaking
    (some "travel") none "sess1" true 0

/-- C6 counterexample: after `handle_session_start` has sent the greeting,
the stored `server_seq` is 2, not 1 — the handler emits two sequenced
messages (`session.started` at seq 1 and the greeting `ai.reply` at
seq 2). -/
theorem session_start_seq_not_one :
    ¬ server_seq_of c6_res.1 "sess1" = 1 ∧ server_seq_of c6_res.1 "sess1" = 2 := by
  constructor <;> decide

/-- C6 amended: after the successful creation scenario (user `U1`, mode
`free_speaking`, topic `"travel"`) and its greeting, the Session Record is
`READY` with `turn_count = 0` — but `server_seq = 2`, because both a
`session.started` message (seq 1) and the greeting (seq 2) were sent. -/
theorem session_start_spec :
    state_of c6_res.1 "sess1" = some .READY ∧
    server_seq_of c6_res.1 "sess1" = 2 ∧
    turns_of c6_res.1 "sess1" = some 0 ∧
    (c6_res.2.1.map (fun p => p.2.mtype)) = [.session_started, .ai_reply] ∧
    (c6_res.2.1.map (fun p => p.2.seq)) = [1, 2] := by
  refine ⟨?_, ?_, ?_, ?_, ?_⟩ <;> decide

/-! ## C8: send_message buffers before any delivery attempt -/

/-- C8: whenever the session's replay buffer exists, `send_message` first
appends the message to the buffer (keeping the last `max_buffer_size`
entries) regardless of whether a transport handle is attached; when no
handle is attached the call returns `false`, transmits nothing, and the
only mutation is that buffer append — sessions, connections and
pending-reconnect are untouched, so messages emitted while `PAUSED` stay
available for replay. -/
theorem send_message_buffers_before_delivery (m : SessionManager) (sid : String)
    (msg : ServerMessage) (tok : Bool) (now : Nat) (buf : List ServerMessage)
    (hbuf : alookup sid m.message_buffers = some buf) :
    alookup sid ((m.send_message sid msg tok now).1).message_buffers
      = some (lastN m.max_buffer_size (buf ++ [msg])) ∧
    (alookup sid m.connections = none →
      m.send_message sid msg tok now
        = ({ m with
              message_buffers :=
                aset sid (lastN m.max_buffer_size (buf ++ [msg])) m.message_buffers },
            false, [])) := by
  refine ⟨send_message_buffer_self m sid msg tok now buf hbuf, ?_⟩
  intro hconn
  unfold SessionManager.send_message
  have hba : m.buffer_append sid msg
      = { m with
            message_buffers :=
              aset sid (lastN m.max_buffer_size (buf ++ [msg])) m.message_buffers } := by
    unfold SessionManager.buffer_append
    rw [hbuf]
    simp only [trim_eq]
  rw [hba]
  simp only [hconn]

def exMsg3 : ServerMessage := ⟨.ai_reply, 3, .replyInfo "more" "turn_1_s1"⟩

theorem send_message_buffers_before_delivery_witness :
    (alookup "s1" exM.message_buffers
        = some [⟨.session_started, 1, .startedInfo "s1" .free_speaking "active"⟩,
                ⟨.ai_reply, 2, .replyInfo "hello" "turn_0_s1"⟩]) ∧
    (alookup "s1" ((exM.send_message "s1" exMsg3 true 10).1).message_buffers
        = some (lastN exM.max_buffer_size
            ([⟨.session_started, 1, .startedInfo "s1" .free_speaking "active"⟩,
              ⟨.ai_reply, 2, .replyInfo "hello" "turn_0_s1"⟩] ++ [exMsg3])) ∧
      (alookup "s1" exM.connections = none →
        exM.send_message "s1" exMsg3 true 10
          = ({ exM with
                message_buffers :=
                  aset "s1" (lastN exM.max_buffer_size
                    ([⟨.session_started, 1, .startedInfo "s1" .free_speaking "active"⟩,
                      ⟨.ai_reply, 2, .replyInfo "hello" "turn_0_s1"⟩] ++ [exMsg3]))
                    exM.message_buffers },
              false, []))) :=
  ⟨by decide,
    send_message_buffers_before_delivery exM "s1" exMsg3 true 10
      [⟨.session_started, 1, .startedInfo "s1" .free_speaking "active"⟩,
       ⟨.ai_reply, 2, .replyInfo "hello" "turn_0_s1"⟩] (by decide)⟩

/-! ## C9: failed resume is atomic -/

/-- C9: when the session is absent from the live table, or its pending
reconnection window has already expired, `resume_session` returns `None`
having replayed nothing and leaving the manager completely unchanged — in
particular no transport handle is attached and the pending-reconnect
entry, replay buffer and session record (if any) are untouched. -/
theorem resume_failure_atomic (m : SessionManager) (ws : Nat) (sid : String)
    (k : Nat) (db : Bool) (now : Nat)
    (h : alookup sid m.sessions = none ∨
      ∃ expiry, alookup sid m.pending_reconnect = some expiry ∧ now > expiry) :
    m.resume_session ws sid k db now = (m, none, []) := by
  unfold SessionManager.resume_session
  rcases h with h | ⟨expiry, hp, he⟩
  · simp only [h]
  · cases hs : alookup sid m.sessions with
    | none => rfl
    | some ctx => simp only [hp, if_pos he]

def exMexpired : SessionManager :=
  { sessions := [("s1", exCtx)],
    connections := [],
    pending_reconnect := [("s1", 10)],
    message_buffers := [("s1", [])] }

theorem resume_failure_atomic_witness :
    (alookup "s1" exMexpired.sessions = none ∨
      ∃ expiry, alookup "s1" exMexpired.pending_reconnect = some expiry ∧ 500 > expiry) ∧
    exMexpired.resume_session 9 "s1" 2 true 500 = (exMexpired, none, []) :=
  ⟨Or.inr ⟨10, by decide, by decide⟩,
    resume_failure_atomic exMexpired 9 "s1" 2 true 500 (Or.inr ⟨10, by decide, by decide⟩)⟩

/-! ## C10: totality on unknown session ids -/

/-- C10: every Session Manager operation is total on unknown session ids —
for an id absent from the live table, `get_session` and `end_session`
return `None` and `handle_disconnect`, `update_state`,
`record_audio_chunk` and `increment_turn` leave the manager unchanged.
(The embedded operations are total Lean functions, so none of them can
raise.) -/
theorem unknown_session_ops_total (m : SessionManager) (sid : String) (now : Nat)
    (st : SessionState) (dur : Nat)
    (h : alookup sid m.sessions = none) :
    m.get_session sid = none ∧
    m.end_session sid now = (m, none) ∧
    m.handle_disconnect sid now = m ∧
    m.update_state sid st now = m ∧
    m.record_audio_chunk sid dur now = m ∧
    m.increment_turn sid = m := by
  refine ⟨?_, ?_, ?_, ?_, ?_, ?_⟩
  · unfold SessionManager.get_session
    exact h
  · unfold SessionManager.end_session
    simp only [h]
  · unfold SessionManager.handle_disconnect
    simp only [h]
  · unfold SessionManager.update_state
    simp only [h]
  · unfold SessionManager.record_audio_chunk
    simp only [h]
  · unfold SessionManager.increment_turn
    simp only [h]

theorem unknown_session_ops_total_witness :
    alookup "ghost" exM.sessions = none ∧
    (exM.get_session "ghost" = none ∧
      exM.end_session "ghost" 3 = (exM, none) ∧
      exM.handle_disconnect "ghost" 3 = exM ∧
      exM.update_state "ghost" .READY 3 = exM ∧
      exM.record_audio_chunk "ghost" 40 3 = exM ∧
      exM.increment_turn "ghost" = exM) :=
  ⟨by decide, unknown_session_ops_total exM "ghost" 3 .READY 40 (by decide)⟩

/-! ## C7: expiry forces completion and eviction -/

theorem end_session_sessions_self (m : SessionManager) (sid : String) (now : Nat)
    (ctx : SessionContext) (h : alookup sid m.sessions = some ctx) :
    alookup sid (m.end_session sid now).1.sessions
      = some { ctx with state := .COMPLETED } := by
  unfold SessionManager.end_session
  rw [h]
  simp [alookup_aset_self]

theorem end_session_sessions_other (m : SessionManager) (sid2 : String) (now : Nat)
    (sid : String) (hne : sid2 ≠ sid) :
    alookup sid (m.end_session sid2 now).1.sessions = alookup sid m.sessions := by
  unfold SessionManager.end_session
  cases h : alookup sid2 m.sessions with
  | none => rfl
  | some c => simp [alookup_aset_ne _ _ hne]

theorem end_session_buffers (m : SessionManager) (sid2 : String) (now : Nat) :
    (m.end_session sid2 now).1.message_buffers = m.message_buffers := by
  unfold SessionManager.end_session
  cases alookup sid2 m.sessions <;> rfl

theorem end_session_pending_other (m : SessionManager) (sid2 : String) (now : Nat)
    (sid : String) (hne : sid2 ≠ sid) :
    alookup sid (m.end_session sid2 now).1.pending_reconnect
      = alookup sid m.pending_reconnect := by
  unfold SessionManager.end_session
  cases h : alookup sid2 m.sessions with
  | none => rfl
  | some c => simp [alookup_aerase_ne _ hne]

theorem cleanup_step_self (m : SessionManager) (log : List (String × SessionContext))
    (sid : String) (ctx : SessionContext) (h : alookup sid m.sessions = some ctx) :
    alookup sid (SessionManager.cleanup_step (m, log) sid).1.sessions = none ∧
    alookup sid (SessionManager.cleanup_step (m, log) sid).1.message_buffers = none ∧
    alookup sid (SessionManager.cleanup_step (m, log) sid).1.pending_reconnect = none ∧
    (sid, { ctx with state := SessionState.COMPLETED })
      ∈ (SessionManager.cleanup_step (m, log) sid).2 := by
  unfold SessionManager.cleanup_step
  simp only [h, end_session_sessions_self m sid 0 ctx h]
  refine ⟨?_, ?_, ?_, ?_⟩ <;> simp [alookup_aerase_self]

theorem cleanup_step_other (m : SessionManager) (log : List (String × SessionContext))
    (a sid : String) (hne : a ≠ sid) :
    alookup sid (SessionManager.cleanup_step (m, log) a).1.sessions
      = alookup sid m.sessions ∧
    alookup sid (SessionManager.cleanup_step (m, log) a).1.message_buffers
      = alookup sid m.message_buffers ∧
    alookup sid (SessionManager.cleanup_step (m, log) a).1.pending_reconnect
      = alookup sid m.pending_reconnect ∧
    ∀ x ∈ log, x ∈ (SessionManager.cleanup_step (m, log) a).2 := by
  unfold SessionManager.cleanup_step
  cases ha : alookup a m.sessions with
  | none =>
    refine ⟨?_, ?_, ?_, ?_⟩ <;> simp [ha, alookup_aerase_ne _ hne]
  | some c =>
    cases hb : alookup a (m.end_session a 0).1.sessions with
    | none =>
      refine ⟨?_, ?_, ?_, ?_⟩ <;>
        simp [ha, hb, alookup_aerase_ne _ hne, end_session_sessions_other m a 0 sid hne,
          end_session_buffers, end_session_pending_other m a 0 sid hne]
    | some c2 =>
      refine ⟨?_, ?_, ?_, ?_⟩ <;>
        simp [ha, hb, alookup_aerase_ne _ hne, end_session_sessions_other m a 0 sid hne,
          end_session_buffers, end_session_pending_other m a 0 sid hne]
      exact fun x y hxy => Or.inl hxy

theorem cleanup_step_absent (m : SessionManager) (log : List (String × SessionContext))
    (a sid : String)
    (h1 : alookup sid m.sessions = none)
    (h2 : alookup sid m.message_buffers = none)
    (h3 : alookup sid m.pending_reconnect = none) :
    alookup sid (SessionManager.cleanup_step (m, log) a).1.sessions = none ∧
    alookup sid (SessionManager.cleanup_step (m, log) a).1.message_buffers = none ∧
    alookup sid (SessionManager.cleanup_step (m, log) a).1.pending_reconnect = none ∧
    ∀ x ∈ log, x ∈ (SessionManager.cleanup_step (m, log) a).2 := by
  by_cases ha : a = sid
  · subst ha
    unfold SessionManager.cleanup_step
    simp only [h1]
    refine ⟨?_, ?_, ?_, ?_⟩ <;> simp [alookup_aerase_self]
  · obtain ⟨hs, hb, hp, hl⟩ := cleanup_step_other m log a sid ha
    exact ⟨hs.trans h1, hb.trans h2, hp.trans h3, hl⟩

theorem cleanup_fold_absent (sid : String) :
    ∀ (ids : List String) (m : SessionManager) (log : List (String × SessionContext)),
      alookup sid m.sessions = none →
      alookup sid m.message_buffers = none →
      alookup sid m.pending_reconnect = none →
      alookup sid (ids.foldl SessionManager.cleanup_step (m, log)).1.sessions = none ∧
      alookup sid (ids.foldl SessionManager.cleanup_step (m, log)).1.message_buffers = none ∧
      alookup sid (ids.foldl SessionManager.cleanup_step (m, log)).1.pending_reconnect = none ∧
      ∀ x ∈ log, x ∈ (ids.foldl SessionManager.cleanup_step (m, log)).2 := by
  intro ids
  induction ids with
  | nil =>
    intro m log h1 h2 h3
    exact ⟨h1, h2, h3, fun x hx => hx⟩
  | cons a rest ih =>
    intro m log h1 h2 h3
    obtain ⟨s1, s2, s3, s4⟩ := cleanup_step_absent m log a sid h1 h2 h3
    rcases hstep : SessionManager.cleanup_step (m, log) a with ⟨m1, log1⟩
    rw [hstep] at s1 s2 s3 s4
    have hfold : (a :: rest).foldl SessionManager.cleanup_step (m, log)
        = rest.foldl SessionManager.cleanup_step (m1, log1) := by
      simp [List.foldl_cons, hstep]
    rw [hfold]
    obtain ⟨g1, g2, g3, g4⟩ := ih m1 log1 s1 s2 s3
    exact ⟨g1, g2, g3, fun x hx => g4 x (s4 x hx)⟩

theorem cleanup_fold_hits (sid : String) :
    ∀ (ids : List String) (m : SessionManager) (log : List (String × SessionContext))
      (ctx : SessionContext),
      sid ∈ ids →
      alookup sid m.sessions = some ctx →
      alookup sid (ids.foldl SessionManager.cleanup_step (m, log)).1.sessions = none ∧
      alookup sid (ids.foldl SessionManager.cleanup_step (m, log)).1.message_buffers = none ∧
      alookup sid (ids.foldl SessionManager.cleanup_step (m, log)).1.pending_reconnect = none ∧
      ∃ c, (sid, c) ∈ (ids.foldl SessionManager.cleanup_step (m, log)).2 ∧
        c.state = .COMPLETED := by
  intro ids
  induction ids with
  | nil =>
    intro m log ctx hin
    cases hin
  | cons a rest ih =>
    intro m log ctx hin hctx
    rcases hstep : SessionManager.cleanup_step (m, log) a with ⟨m1, log1⟩
    have hfold : (a :: rest).foldl SessionManager.cleanup_step (m, log)
        = rest.foldl SessionManager.cleanup_step (m1, log1) := by
      simp [List.foldl_cons, hstep]
    rw [hfold]
    by_cases ha : a = sid
    · subst ha
      obtain ⟨s1, s2, s3, smem⟩ := cleanup_step_self m log a ctx hctx
      rw [hstep] at s1 s2 s3 smem
      obtain ⟨g1, g2, g3, g4⟩ := cleanup_fold_absent a rest m1 log1 s1 s2 s3
      exact ⟨g1, g2, g3,
        ⟨{ ctx with state := SessionState.COMPLETED }, g4 _ smem, rfl⟩⟩
    · have hrest : sid ∈ rest := by
        rcases List.mem_cons.mp hin with h | h
        · exact absurd h.symm ha
        · exact h
      obtain ⟨hs, _, _, _⟩ := cleanup_step_other m log a sid ha
      rw [hstep] at hs
      exact ih m1 log1 ctx hrest (hs.trans hctx)

/-- C7: after `cleanup_expired_sessions` runs at a time past a `PAUSED`
session's reconnection-window expiry, that session is absent from the live
session table, the replay-buffer table and the pending-reconnect map, and
the evicted Session Record (observable in the eviction log) was left in
state `COMPLETED` by `end_session` — which satisfies the claimed
"COMPLETED (or ERROR)". -/
theorem sweep_expired_completes (m : SessionManager) (sid : String) (now expiry : Nat)
    (ctx : SessionContext)
    (hpend : alookup sid m.pending_reconnect = some expiry)
    (hexp : now > expiry)
    (hsess : alookup sid m.sessions = some ctx)
    (_hpaused : ctx.state = .PAUSED) :
    alookup sid (m.cleanup_expired_sessions now).1.sessions = none ∧
    alookup sid (m.cleanup_expired_sessions now).1.message_buffers = none ∧
    alookup sid (m.cleanup_expired_sessions now).1.pending_reconnect = none ∧
    ∃ c, (sid, c) ∈ (m.cleanup_expired_sessions now).2 ∧ c.state = .COMPLETED := by
  have hmemp : (sid, expiry) ∈ m.pending_reconnect := alookup_mem hpend
  have hmemf : sid ∈ (m.pending_reconnect.filter (fun p => now > p.2)).map (fun p => p.1) := by
    apply List.mem_map.mpr
    refine ⟨(sid, expiry), List.mem_filter.mpr ⟨hmemp, ?_⟩, rfl⟩
    simpa using hexp
  unfold SessionManager.cleanup_expired_sessions
  exact cleanup_fold_hits sid _ m [] ctx hmemf hsess

theorem sweep_expired_completes_witness :
    (alookup "s1" exMexpired.pending_reconnect = some 10 ∧ 500 > 10 ∧
      alookup "s1" exMexpired.sessions = some exCtx ∧ exCtx.state = .PAUSED) ∧
    (alookup "s1" (exMexpired.cleanup_expired_sessions 500).1.sessions = none ∧
      alookup "s1" (exMexpired.cleanup_expired_sessions 500).1.message_buffers = none ∧
      alookup "s1" (exMexpired.cleanup_expired_sessions 500).1.pending_reconnect = none ∧
      ∃ c, ("s1", c) ∈ (exMexpired.cleanup_expired_sessions 500).2 ∧
        c.state = .COMPLETED) :=
  ⟨⟨by decide, by decide, by decide, by decide⟩,
    sweep_expired_completes exMexpired "s1" 500 10 exCtx (by decide) (by decide)
      (by decide) (by decide)⟩

/-! ## C3: replay completeness within the buffer bound -/

theorem lastN_length_le (cap : Nat) (l : List ServerMessage) :
    (lastN cap l).length ≤ cap := by
  unfold lastN
  rw [List.length_drop]
  omega

theorem lastN_of_le (cap : Nat) (l : List ServerMessage) (h : l.length ≤ cap) :
    lastN cap l = l := by
  unfold lastN
  rw [Nat.sub_eq_zero_of_le h]
  rfl

theorem lastN_lastN_append (cap : Nat) (l r : List ServerMessage) :
    lastN cap (lastN cap l ++ r) = lastN cap (l ++ r) := by
  unfold lastN
  have hd : l.length - cap ≤ l.length := Nat.sub_le _ _
  rw [← List.drop_append_of_le_length hd, List.length_drop, List.drop_drop,
    List.length_append]
  congr 1
  omega

theorem push_history_buffer (sid : String) (tok : Bool) (now : Nat) :
    ∀ (msgs : List ServerMessage) (m : SessionManager) (buf : List ServerMessage),
      alookup sid m.message_buffers = some buf →
      buf.length ≤ m.max_buffer_size →
      alookup sid (push_history m sid msgs tok now).message_buffers
        = some (lastN m.max_buffer_size (buf ++ msgs)) ∧
      (push_history m sid msgs tok now).max_buffer_size = m.max_buffer_size := by
  intro msgs
  induction msgs with
  | nil =>
    intro m buf h hlen
    refine ⟨?_, rfl⟩
    rw [List.append_nil, lastN_of_le _ _ hlen]
    exact h
  | cons x rest ih =>
    intro m buf h hlen
    have hstep := send_message_buffer_self m sid x tok now buf h
    have hmax := send_message_max m sid x tok now
    have hlen2 : (lastN m.max_buffer_size (buf ++ [x])).length
        ≤ ((m.send_message sid x tok now).1).max_buffer_size := by
      rw [hmax]
      exact lastN_length_le _ _
    have hrec := ih ((m.send_message sid x tok now).1) _ hstep hlen2
    have hph : push_history m sid (x :: rest) tok now
        = push_history ((m.send_message sid x tok now).1) sid rest tok now := rfl
    rw [hph]
    rcases hrec with ⟨hr1, hr2⟩
    refine ⟨?_, by rw [hr2, hmax]⟩
    rw [hr1, hmax, lastN_lastN_append]
    simp [List.append_assoc]

theorem sorted_filter_decompose (k : Nat) :
    ∀ (l : List ServerMessage), seq_increasing l →
      ∃ pre, l = pre ++ l.filter (fun msg => msg.seq > k) ∧
        ∀ x ∈ pre, ¬ x.seq > k := by
  intro l
  induction l with
  | nil =>
    intro hs
    exact ⟨[], by simp, by simp⟩
  | cons a t ih =>
    intro hs
    rcases List.pairwise_cons.mp hs with ⟨ha, ht⟩
    by_cases hk : a.seq > k
    · have hall : t.filter (fun msg => msg.seq > k) = t := by
        apply List.filter_eq_self.mpr
        intro b hb
        simpa using lt_trans hk (ha b hb)
      refine ⟨[], ?_, by simp⟩
      rw [List.filter_cons_of_pos (by simpa using hk), hall, List.nil_append]
    · obtain ⟨pre, hsplit, hpre⟩ := ih ht
      refine ⟨a :: pre, ?_, ?_⟩
      · rw [List.filter_cons_of_neg (by simpa using hk), List.cons_append, ← hsplit]
      · intro x hx
        rcases List.mem_cons.mp hx with rfl | hx2
        · exact hk
        · exact hpre x hx2

theorem filter_lastN (cap k : Nat) (l : List ServerMessage)
    (hsort : seq_increasing l)
    (hcount : (l.filter (fun msg => msg.seq > k)).length < cap) :
    (lastN cap l).filter (fun msg => msg.seq > k)
      = l.filter (fun msg => msg.seq > k) := by
  obtain ⟨pre, hsplit, hpre⟩ := sorted_filter_decompose k l hsort
  have hlen : l.length = pre.length + (l.filter (fun msg => msg.seq > k)).length := by
    conv_lhs => rw [hsplit]
    rw [List.length_append]
  have hdle : l.length - cap ≤ pre.length := by omega
  have hgen : ∀ d, d ≤ pre.length →
      (l.drop d).filter (fun msg => msg.seq > k)
        = l.filter (fun msg => msg.seq > k) := by
    intro d hdp
    have h1 : (pre.drop d).filter (fun msg => msg.seq > k) = [] := by
      apply List.filter_eq_nil_iff.mpr
      intro x hx
      have hxp : x ∈ pre := List.mem_of_mem_drop hx
      simpa using hpre x hxp
    have h2 : ((l.filter (fun msg => msg.seq > k)).filter (fun msg => msg.seq > k))
        = l.filter (fun msg => msg.seq > k) := by
      apply List.filter_eq_self.mpr
      intro x hx
      exact (List.mem_filter.mp hx).2
    conv_lhs => rw [hsplit]
    rw [List.drop_append_of_le_length hdp, List.filter_append, h1, List.nil_append, h2]
  unfold lastN
  exact hgen (l.length - cap) hdle

theorem resume_session_replayed_success (m : SessionManager) (ws : Nat) (sid : String)
    (k : Nat) (db : Bool) (now : Nat) (ctx : SessionContext) (buf : List ServerMessage)
    (hs : alookup sid m.sessions = some ctx)
    (hb : alookup sid m.message_buffers = some buf)
    (hw : ∀ expiry, alookup sid m.pending_reconnect = some expiry → ¬ now > expiry) :
    (m.resume_session ws sid k db now).2.2 = buf.filter (fun msg => msg.seq > k) := by
  unfold SessionManager.resume_session
  simp only [hs]
  cases hp : alookup sid m.pending_reconnect with
  | some expiry =>
    simp only [if_neg (hw expiry hp)]
    simp [hb]
  | none => simp [hb]

/-- C3: if the session was created with an empty replay buffer and then an
arbitrary strictly-seq-increasing history `h` of server messages was sent
through `send_message`, and fewer than the buffer capacity (100) of them
carry `seq > k`, then a resume with `last_acked_seq = k` replays exactly
the messages with `seq > k`, in their original (seq) order — and the
connection trace consists of that replay followed by (i.e. before) any
newly emitted message. -/
theorem replay_completeness (m0 : SessionManager) (sid : String)
    (h : List ServerMessage) (tok : Bool) (now now2 : Nat) (ws : Nat) (k : Nat)
    (db : Bool) (ctx : SessionContext)
    (hbuf0 : alookup sid m0.message_buffers = some [])
    (hcap : m0.max_buffer_size = 100)
    (hsort : seq_increasing h)
    (hcount : (h.filter (fun msg => msg.seq > k)).length < 100)
    (hsess : alookup sid (push_history m0 sid h tok now).sessions = some ctx)
    (hwin : ∀ expiry,
      alookup sid (push_history m0 sid h tok now).pending_reconnect = some expiry →
      ¬ now2 > expiry) :
    ((push_history m0 sid h tok now).resume_session ws sid k db now2).2.2
      = h.filter (fun msg => msg.seq > k) ∧
    ∀ es, conn_trace (push_history m0 sid h tok now) ws sid k db now2 es
      = h.filter (fun msg => msg.seq > k)
        ++ (emit_all ((push_history m0 sid h tok now).resume_session ws sid k db now2).1
              sid es now2).2 := by
  obtain ⟨hbuf, _⟩ :=
    push_history_buffer sid tok now h m0 [] hbuf0 (by simp)
  rw [List.nil_append, hcap] at hbuf
  have hre : ((push_history m0 sid h tok now).resume_session ws sid k db now2).2.2
      = (lastN 100 h).filter (fun msg => msg.seq > k) :=
    resume_session_replayed_success _ ws sid k db now2 ctx _ hsess hbuf hwin
  rw [filter_lastN 100 k h hsort hcount] at hre
  exact ⟨hre, fun es => by rw [← hre]; rfl⟩

def c3h : List ServerMessage :=
  [⟨.session_started, 1, .startedInfo "s1" .free_speaking "active"⟩,
   ⟨.ai_reply, 2, .replyInfo "hello" "turn_0_s1"⟩,
   ⟨.ai_reply, 3, .replyInfo "again" "turn_1_s1"⟩]

theorem replay_completeness_witness :
    (alookup "s1" exMready.message_buffers = some [] ∧
      exMready.max_buffer_size = 100 ∧
      seq_increasing c3h ∧
      (c3h.filter (fun msg => msg.seq > 1)).length < 100 ∧
      alookup "s1" (push_history exMready "s1" c3h true 0).sessions = some exCtxReady ∧
      (∀ expiry,
        alookup "s1" (push_history exMready "s1" c3h true 0).pending_reconnect
          = some expiry → ¬ 30 > expiry)) ∧
    ((push_history exMready "s1" c3h true 0).resume_session 9 "s1" 1 true 30).2.2
      = c3h.filter (fun msg => msg.seq > 1) := by
  have hnone :
      alookup "s1" (push_history exMready "s1" c3h true 0).pending_reconnect = none := by
    decide
  have hwin : ∀ expiry,
      alookup "s1" (push_history exMready "s1" c3h true 0).pending_reconnect
        = some expiry → ¬ 30 > expiry := by
    intro expiry hx
    rw [hnone] at hx
    cases hx
  refine ⟨⟨by decide, by decide, by decide, by decide, by decide, hwin⟩, ?_⟩
  exact (replay_completeness exMready "s1" c3h true 0 30 9 1 true exCtxReady
    (by decide) (by decide) (by decide) (by decide) (by decide) hwin).1
